import Mathlib

/-!
Verification development for the NCIR-LVGL firmware (M5Stack CoreS3 +
MLX90614 infrared thermometer).  The definitions below are a shallow
embedding of the settings persistence codec, the menu navigation logic,
the emissivity change/cancel flow, the restart countdown and the
temperature read/display step of the main sketch.  C `float` arithmetic
is modelled over ℚ with the source's truncating casts made explicit;
machine bytes are `Nat` with masking where the source stores them.
-/

namespace NCIR

/-! ## Constants (EEPROM layout, table sizes, pins) -/

def SETTINGS_VALID_ADDR : Nat := 0
def TEMP_UNIT_ADDR : Nat := 1
def GAUGE_VISIBLE_ADDR : Nat := 2
def BRIGHTNESS_ADDR : Nat := 3
def EMISSIVITY_ADDR : Nat := 4
def SOUND_SETTINGS_ADDR : Nat := 6
def SETTINGS_VALID_VALUE : Nat := 0x55
def BRIGHTNESS_LEVELS : Nat := 4
def KEY_PIN : Nat := 8
def BUTTON1_PIN : Nat := 17
def BUTTON2_PIN : Nat := 18
def VOLUME_STEP : Nat := 5

/-- Celsius thresholds for the status label / LED (TEMP_TOO_COLD_C etc.). -/
def TEMP_TOO_COLD_C : ℚ := 204
def TEMP_LOW_C : ℚ := 232
def TEMP_HIGH_C : ℚ := 316
def TEMP_TOO_HOT_C : ℚ := 343
def TEMP_TOO_COLD_F : ℚ := 400
def TEMP_LOW_F : ℚ := 450
def TEMP_HIGH_F : ℚ := 600
def TEMP_TOO_HOT_F : ℚ := 650

/-! ## EEPROM model

The EEPROM is a byte store addressed by `Nat`.  `EEPROM.write` is the
vendor call `EEPROM.write(addr, uint8_t)`; the cell keeps the low byte.
`eread` is `EEPROM.read`. -/

def EEPROM : Type := Nat → Nat

def ewrite (m : EEPROM) (a v : Nat) : EEPROM :=
  fun x => if x = a then v % 256 else m x

def eread (m : EEPROM) (a : Nat) : Nat := m a

/-- Every cell of this store is a byte (written cells always are). -/
def ByteStore (m : EEPROM) : Prop := ∀ a, eread m a < 256

/-! ## Settings record

The global state variables of the sketch that the persistence codec and
the emissivity flow read and write.  `current_emissivity` and
`pending_emissivity` are C `float`s, modelled as rationals. -/

structure Settings where
  temp_in_celsius : Bool
  current_brightness : Nat
  showGauge : Bool
  sound_enabled : Bool
  volume_level : Nat
  current_emissivity : ℚ
  pending_emissivity : ℚ
  emissivity_changed : Bool
deriving DecidableEq

/-- Boot-time defaults of the global state variables. -/
def defaultSettings : Settings :=
  { temp_in_celsius := true
    current_brightness := 3
    showGauge := true
    sound_enabled := true
    volume_level := 100
    current_emissivity := 95 / 100
    pending_emissivity := 0
    emissivity_changed := false }

/-! ## setEmissivity

Mirrors `setEmissivity(float value)`: when the value differs from the
current emissivity it stores the previous value in `pending_emissivity`,
updates `current_emissivity`, raises `emissivity_changed`, and issues an
I2C write of `(uint16_t)(value * 65535)` split into high/low bytes to
register 0x24.  The C cast of a nonnegative float to `uint16_t`
truncates, modelled by `Int.toNat ∘ Int.floor` followed by `% 65536`. -/

structure BusWrite where
  reg : Nat
  hi : Nat
  lo : Nat
deriving DecidableEq

def setEmissivity (value : ℚ) (s : Settings) : Settings × Option BusWrite :=
  if value ≠ s.current_emissivity then
    let s2 : Settings :=
      { s with pending_emissivity := s.current_emissivity
               current_emissivity := value
               emissivity_changed := true }
    let emissivityData : Nat := (Int.toNat ⌊value * 65535⌋) % 65536
    (s2, some ⟨0x24, emissivityData >>> 8, emissivityData &&& 0xFF⟩)
  else
    (s, none)

/-! ## saveSettings

Mirrors `saveSettings()`: writes the sentinel, unit, brightness, gauge
flag, the packed sound byte (bit 7 = enabled, low 7 bits = volume
percent) and the emissivity as `(uint16_t)(current_emissivity * 100)` in
two little-endian bytes. -/

def saveSettings (s : Settings) (m : EEPROM) : EEPROM :=
  let m := ewrite m SETTINGS_VALID_ADDR SETTINGS_VALID_VALUE
  let m := ewrite m TEMP_UNIT_ADDR (if s.temp_in_celsius then 1 else 0)
  let m := ewrite m BRIGHTNESS_ADDR s.current_brightness
  let m := ewrite m GAUGE_VISIBLE_ADDR (if s.showGauge then 1 else 0)
  let m := ewrite m SOUND_SETTINGS_ADDR
      ((if s.sound_enabled then 0x80 else 0) ||| (s.volume_level &&& 0x7F))
  let emissivity_int : Nat := (Int.toNat ⌊s.current_emissivity * 100⌋) % 65536
  let m := ewrite m EMISSIVITY_ADDR (emissivity_int &&& 0xFF)
  let m := ewrite m (EMISSIVITY_ADDR + 1) (emissivity_int >>> 8)
  m

/-! ## loadSettings

Mirrors `loadSettings()`.  On a sentinel match it reads every field,
migrates a legacy sound byte (low 7 bits ≤ 0x03) to the new packed
format with one write-back, clamps volume to [25,100], reads the
emissivity and clamps it to [0.65,1.00], re-applies it through
`setEmissivity` (a no-op, the value equals the current one), and clamps
the brightness index below `BRIGHTNESS_LEVELS`.  The result carries the
updated state, the possibly rewritten EEPROM image, and the number of
EEPROM write-backs (commits) performed. -/

def loadSettings (s0 : Settings) (m : EEPROM) : Settings × EEPROM × Nat :=
  if eread m SETTINGS_VALID_ADDR = SETTINGS_VALID_VALUE then
    let temp_in_celsius := eread m TEMP_UNIT_ADDR == 1
    let current_brightness := eread m BRIGHTNESS_ADDR
    let showGauge := eread m GAUGE_VISIBLE_ADDR == 1
    let sound_byte := eread m SOUND_SETTINGS_ADDR
    let sound_enabled := sound_byte &&& 0x80 != 0
    let legacy := sound_byte &&& 0x7F ≤ 0x03
    let volume_level :=
      if legacy then (sound_byte &&& 0x03) * 25 + 25 else sound_byte &&& 0x7F
    let m2 :=
      if legacy then
        ewrite m SOUND_SETTINGS_ADDR
          ((if sound_enabled then 0x80 else 0) ||| (volume_level &&& 0x7F))
      else m
    let rewrites : Nat := if legacy then 1 else 0
    let volume_level := if volume_level < 25 then 25 else volume_level
    let volume_level := if volume_level > 100 then 100 else volume_level
    let emissivity_int :=
      eread m2 EMISSIVITY_ADDR ||| (eread m2 (EMISSIVITY_ADDR + 1) <<< 8)
    let current_emissivity : ℚ := (emissivity_int : ℚ) / 100
    let current_emissivity :=
      if current_emissivity < 65 / 100 then 65 / 100 else current_emissivity
    let current_emissivity :=
      if current_emissivity > 1 then 1 else current_emissivity
    let s := { s0 with temp_in_celsius, current_brightness, showGauge,
                       sound_enabled, volume_level, current_emissivity }
    let s := (setEmissivity s.current_emissivity s).1
    let s :=
      if s.current_brightness ≥ BRIGHTNESS_LEVELS then
        { s with current_brightness := BRIGHTNESS_LEVELS - 1 }
      else s
    (s, m2, rewrites)
  else
    (s0, m, 0)

/-! ## Menu navigation

State variables touched by `handle_button_press(int pin)` and the
function itself.  UI drawing, beeps and the selection dispatch of
`handle_menu_selection` (a separate function in the sketch) are not
state of the navigation logic. -/

structure UIState where
  bar_active : Bool
  sound_menu_active : Bool
  brightness_menu_active : Bool
  menu_active : Bool
  selected_menu_item : Nat
  selected_brightness : Nat
  current_brightness : Nat
  volume_level : Nat
  temp_in_celsius : Bool
deriving DecidableEq

def handle_button_press (st : UIState) (pin : Nat) : UIState :=
  if st.bar_active then st
  else if st.sound_menu_active then
    if pin = BUTTON1_PIN then
      { st with volume_level :=
          if st.volume_level > 25 then st.volume_level - VOLUME_STEP else 25 }
    else if pin = BUTTON2_PIN then
      { st with volume_level :=
          if st.volume_level < 100 then st.volume_level + VOLUME_STEP else 100 }
    else st
  else if st.brightness_menu_active then
    if pin = BUTTON1_PIN then
      let sb := if st.selected_brightness > 0 then st.selected_brightness - 1 else 3
      { st with selected_brightness := sb, current_brightness := sb }
    else if pin = BUTTON2_PIN then
      let sb := if st.selected_brightness < 3 then st.selected_brightness + 1 else 0
      { st with selected_brightness := sb, current_brightness := sb }
    else st
  else if st.menu_active then
    if pin = BUTTON1_PIN then
      { st with selected_menu_item :=
          if st.selected_menu_item > 0 then st.selected_menu_item - 1 else 5 }
    else if pin = BUTTON2_PIN then
      { st with selected_menu_item :=
          if st.selected_menu_item < 5 then st.selected_menu_item + 1 else 0 }
    else
      -- KEY_PIN dispatches handle_menu_selection(selected_menu_item);
      -- the navigation indices are untouched by the dispatch itself
      st
  else
    if pin = BUTTON2_PIN then { st with menu_active := true }
    else if pin = BUTTON1_PIN then { st with temp_in_celsius := !st.temp_in_celsius }
    else st

/-! ## Emissivity cancel flow and Exit

`restart_msgbox_event_cb`: on "No, cancel" the callback restores
`current_emissivity` from `pending_emissivity` and clears
`emissivity_changed`; on "Yes, restart" it sets `restart_countdown = 5`
and arms the one-second timer.  `handle_menu_selection` case 5 (Exit)
shows the restart confirmation exactly when `emissivity_changed`
holds. -/

def cancelRestart (s : Settings) : Settings :=
  { s with current_emissivity := s.pending_emissivity
           emissivity_changed := false }

def restart_confirm_countdown : Nat := 5

def exitShowsRestart (s : Settings) : Bool := s.emissivity_changed

/-- Sequence of emissivity adjustments applied through `setEmissivity`
(each slider drag event calls `setEmissivity(new_emissivity)`). -/
def applyAdjustments (s : Settings) (vs : List ℚ) : Settings :=
  vs.foldl (fun acc v => (setEmissivity v acc).1) s

/-! ## Restart countdown

`update_restart_countdown()` runs once per second: while the counter is
positive it updates the label, beeps, decrements, and calls
`ESP.restart()` exactly when the decremented counter hits zero.  The
boolean of the pair records whether the restart fired on that tick. -/

def update_restart_countdown (c : Nat) : Nat × Bool :=
  if c > 0 then
    let c2 := c - 1
    (c2, c2 == 0)
  else
    (c, false)

/-- Counter value after `n` one-second ticks following the Confirm
press (which sets it to `restart_confirm_countdown = 5`). -/
def countdownAfter : Nat → Nat
  | 0 => restart_confirm_countdown
  | n + 1 => (update_restart_countdown (countdownAfter n)).1

/-- Whether the tick taken from the state after `n` ticks fires the
restart (so `restartAt n` is the `n+1`-st tick since Confirm). -/
def restartAt (n : Nat) : Bool := (update_restart_countdown (countdownAfter n)).2

/-! ## Sensor read and display update

`readObjectTemperature()` issues an I2C transaction against the MLX90614
at 0x5A, register 0x07.  The three failure exits (`endTransmission`
not 0, `requestFrom` returning fewer than 2 bytes, fewer than 2 bytes
available) all return the sentinel -999.0; otherwise the two bytes are
assembled little-endian into a `uint16_t` and converted by
`raw * 0.02 - 273.15`. -/

inductive BusResult where
  | nack
  | shortRead
  | notAvailable
  | ok (lo hi : Nat)
deriving DecidableEq

def readObjectTemperature (r : BusResult) : ℚ :=
  match r with
  | .nack => -999
  | .shortRead => -999
  | .notAvailable => -999
  | .ok lo hi =>
    let object_raw : Nat := (lo ||| (hi <<< 8)) % 65536
    (object_raw : ℚ) * (2 / 100) - 27315 / 100

inductive LedColor where
  | blue
  | yellow
  | green
  | orange
  | red
deriving DecidableEq

/-- Outputs the temperature branch of `loop()` writes: the numeric
readout (`(int)round(objectTemp)` with the unit suffix), the status
label text, and the indicator LED color. -/
structure DisplayState where
  temp_value : ℤ
  status : String
  led : LedColor
deriving DecidableEq

/-- Temperature-update step of `loop()`: readings not above -273.15 are
skipped entirely, otherwise the reading is converted to the active unit,
displayed, and classified against the fixed thresholds. -/
def tempUpdateStep (temp_in_celsius : Bool) (objectTemp : ℚ) (d : DisplayState) :
    DisplayState :=
  if objectTemp > -27315 / 100 then
    let t := if temp_in_celsius then objectTemp else objectTemp * 9 / 5 + 32
    if temp_in_celsius then
      { temp_value := round t
        status :=
          if t < TEMP_TOO_COLD_C then "TOO COLD"
          else if t < TEMP_LOW_C then "HEATING UP"
          else if t ≤ TEMP_HIGH_C then "PERFECT!"
          else if t ≤ TEMP_TOO_HOT_C then "COOLING DOWN"
          else "TOO HOT!"
        led :=
          if t < TEMP_TOO_COLD_C then .blue
          else if t < TEMP_LOW_C then .yellow
          else if t ≤ TEMP_HIGH_C then .green
          else if t ≤ TEMP_TOO_HOT_C then .orange
          else .red }
    else
      { temp_value := round t
        status :=
          if t < TEMP_TOO_COLD_F then "TOO COLD"
          else if t < TEMP_LOW_F then "HEATING UP"
          else if t ≤ TEMP_HIGH_F then "PERFECT!"
          else if t ≤ TEMP_TOO_HOT_F then "COOLING DOWN"
          else "TOO HOT!"
        led :=
          if t < TEMP_TOO_COLD_F then .blue
          else if t < TEMP_LOW_F then .yellow
          else if t ≤ TEMP_HIGH_F then .green
          else if t ≤ TEMP_TOO_HOT_F then .orange
          else .red }
  else
    d

/-- Display state right after `setup()`: empty status label, LED set
green, no reading shown yet. -/
def bootDisplay : DisplayState := { temp_value := 0, status := "", led := .green }

/-- Record-validity predicate from the Data Model: brightness index in
table bounds, volume percent in [25,100], emissivity in [0.65,1.00]. -/
def validRecord (s : Settings) : Prop :=
  s.current_brightness < BRIGHTNESS_LEVELS ∧
  25 ≤ s.volume_level ∧ s.volume_level ≤ 100 ∧
  65 / 100 ≤ s.current_emissivity ∧ s.current_emissivity ≤ 1

instance (s : Settings) : Decidable (validRecord s) := by
  unfold validRecord; infer_instance

/-- All-zero EEPROM image (fresh part, sentinel absent). -/
def zeroStore : EEPROM := fun _ => 0

/-! ## Helper lemmas -/

/-- Re-applying the current emissivity is a no-op: the guard
`value != current_emissivity` fails, so neither the state nor the bus
is touched. -/
lemma setEmissivity_self (s : Settings) :
    setEmissivity s.current_emissivity s = (s, none) := by
  simp [setEmissivity]

lemma eread_ewrite (m : EEPROM) (a v b : Nat) :
    eread (ewrite m a v) b = if b = a then v % 256 else eread m b := rfl

/-- Literal-record form of `setEmissivity_self`, as it appears after the
projection `s.current_emissivity` of a record literal has reduced. -/
lemma setEmissivity_mk_self (a : Bool) (b : Nat) (c d : Bool) (v : Nat)
    (e p : ℚ) (ch : Bool) :
    setEmissivity e (Settings.mk a b c d v e p ch)
      = (Settings.mk a b c d v e p ch, none) := by
  simp [setEmissivity]

lemma countdownAfter_eq (k : Nat) :
    countdownAfter k = restart_confirm_countdown - k := by
  induction k with
  | zero => rfl
  | succ n ih =>
    show (update_restart_countdown (countdownAfter n)).1 = restart_confirm_countdown - (n + 1)
    rw [ih]
    unfold update_restart_countdown restart_confirm_countdown
    split_ifs with h <;> simp <;> omega

/-- Closed form of `loadSettings` on a sentinel-valid image: every
output field of the record, the resulting EEPROM image and the
write-back count, as functions of the stored bytes. -/
lemma loadSettings_spec (s0 : Settings) (m : EEPROM)
    (h : eread m SETTINGS_VALID_ADDR = SETTINGS_VALID_VALUE) :
    (let b := eread m SOUND_SETTINGS_ADDR
     let vraw := if b &&& 0x7F ≤ 0x03 then (b &&& 0x03) * 25 + 25 else b &&& 0x7F
     let vlo := if vraw < 25 then 25 else vraw
     let vfin := if vlo > 100 then 100 else vlo
     let m2 := if b &&& 0x7F ≤ 0x03 then
         ewrite m SOUND_SETTINGS_ADDR
           ((if (b &&& 0x80 != 0) = true then 0x80 else 0) ||| (vraw &&& 0x7F))
       else m
     let eI := eread m2 EMISSIVITY_ADDR ||| eread m2 (EMISSIVITY_ADDR + 1) <<< 8
     let elo : ℚ := if (eI : ℚ) / 100 < 65 / 100 then 65 / 100 else (eI : ℚ) / 100
     let efin : ℚ := if elo > 1 then 1 else elo
     (loadSettings s0 m).1.temp_in_celsius = (eread m TEMP_UNIT_ADDR == 1) ∧
     (loadSettings s0 m).1.showGauge = (eread m GAUGE_VISIBLE_ADDR == 1) ∧
     (loadSettings s0 m).1.sound_enabled = (b &&& 0x80 != 0) ∧
     (loadSettings s0 m).1.current_brightness =
       (if eread m BRIGHTNESS_ADDR ≥ BRIGHTNESS_LEVELS then BRIGHTNESS_LEVELS - 1
        else eread m BRIGHTNESS_ADDR) ∧
     (loadSettings s0 m).1.volume_level = vfin ∧
     (loadSettings s0 m).1.current_emissivity = efin ∧
     (loadSettings s0 m).1.pending_emissivity = s0.pending_emissivity ∧
     (loadSettings s0 m).1.emissivity_changed = s0.emissivity_changed ∧
     (loadSettings s0 m).2.1 = m2 ∧
     (loadSettings s0 m).2.2 = (if b &&& 0x7F ≤ 0x03 then 1 else 0)) := by
  dsimp only
  refine ⟨?_, ?_, ?_, ?_, ?_, ?_, ?_, ?_, ?_, ?_⟩ <;>
    (unfold loadSettings
     rw [if_pos h]
     try dsimp only
     try simp only [setEmissivity_self, setEmissivity_mk_self]
     try simp only [apply_ite Settings.temp_in_celsius, apply_ite Settings.current_brightness,
       apply_ite Settings.showGauge, apply_ite Settings.sound_enabled,
       apply_ite Settings.volume_level, apply_ite Settings.current_emissivity,
       apply_ite Settings.pending_emissivity, apply_ite Settings.emissivity_changed,
       ite_self])

/-- Bytes of the image produced by `saveSettings` (each cell holds the
low byte of the written value). -/
lemma saveSettings_bytes (s : Settings) (m : EEPROM) :
    eread (saveSettings s m) SETTINGS_VALID_ADDR = SETTINGS_VALID_VALUE ∧
    eread (saveSettings s m) TEMP_UNIT_ADDR
      = (if s.temp_in_celsius = true then 1 else 0) % 256 ∧
    eread (saveSettings s m) GAUGE_VISIBLE_ADDR
      = (if s.showGauge = true then 1 else 0) % 256 ∧
    eread (saveSettings s m) BRIGHTNESS_ADDR = s.current_brightness % 256 ∧
    eread (saveSettings s m) SOUND_SETTINGS_ADDR
      = ((if s.sound_enabled = true then 0x80 else 0) ||| (s.volume_level &&& 0x7F)) % 256 ∧
    eread (saveSettings s m) EMISSIVITY_ADDR
      = ((Int.toNat ⌊s.current_emissivity * 100⌋ % 65536) &&& 0xFF) % 256 ∧
    eread (saveSettings s m) (EMISSIVITY_ADDR + 1)
      = ((Int.toNat ⌊s.current_emissivity * 100⌋ % 65536) >>> 8) % 256 := by
  refine ⟨?_, ?_, ?_, ?_, ?_, ?_, ?_⟩ <;>
    (unfold saveSettings
     try dsimp only
     simp [eread_ewrite, SETTINGS_VALID_ADDR, TEMP_UNIT_ADDR, GAUGE_VISIBLE_ADDR,
       BRIGHTNESS_ADDR, SOUND_SETTINGS_ADDR, EMISSIVITY_ADDR, SETTINGS_VALID_VALUE])

/-- Bit-level facts about the packed sound byte
`(enabled ? 0x80 : 0) | (volume & 0x7F)` for volume percents in
[25,100]: it survives the byte store unchanged, its bit 7 recovers the
flag, its low 7 bits recover the volume, and it is never mistaken for
the legacy format. -/
lemma packed_sound_byte_facts :
    ∀ v < 101, 25 ≤ v → ∀ en : Bool,
      (((if en = true then 128 else 0) ||| (v &&& 127)) % 256
          = (if en = true then 128 else 0) ||| (v &&& 127)) ∧
      ((((if en = true then 128 else 0) ||| (v &&& 127)) &&& 128 != 0) = en) ∧
      (((if en = true then 128 else 0) ||| (v &&& 127)) &&& 127 = v) ∧
      ¬(((if en = true then 128 else 0) ||| (v &&& 127)) &&& 127 ≤ 3) := by
  decide

/-- Same facts for the byte written back by the legacy migration, whose
volume is `(b & 0x03) * 25 + 25` for some 2-bit value. -/
lemma legacy_migrated_byte_facts :
    ∀ c < 4, ∀ en : Bool,
      (((if en = true then 128 else 0) ||| ((c * 25 + 25) &&& 127)) % 256
          = (if en = true then 128 else 0) ||| ((c * 25 + 25) &&& 127)) ∧
      ((((if en = true then 128 else 0) ||| ((c * 25 + 25) &&& 127)) &&& 128 != 0) = en) ∧
      (((if en = true then 128 else 0) ||| ((c * 25 + 25) &&& 127)) &&& 127 = c * 25 + 25) ∧
      ¬(((if en = true then 128 else 0) ||| ((c * 25 + 25) &&& 127)) &&& 127 ≤ 3) := by
  decide

/-- Emissivity hundredths in [65,100] survive the 16-bit split into two
little-endian bytes and the reassembly. -/
lemma emis_bytes :
    ∀ k < 101, 65 ≤ k →
      ((k % 65536 &&& 255) % 256 = k) ∧ (((k % 65536) >>> 8) % 256 = 0) ∧
      (k ||| 0 <<< 8 = k) := by
  decide

/-- Bounds of the two sequential emissivity clamps of `loadSettings`. -/
lemma clamped_emissivity_bounds (q : ℚ) :
    65 / 100 ≤ (if (if q < 65 / 100 then 65 / 100 else q) > 1 then 1
                else if q < 65 / 100 then 65 / 100 else q) ∧
    (if (if q < 65 / 100 then 65 / 100 else q) > 1 then 1
     else if q < 65 / 100 then 65 / 100 else q) ≤ 1 := by
  constructor <;> split_ifs with h1 h2 <;> push_neg at * <;> try norm_num
  all_goals linarith

/-! ## Claim theorems -/

/-- Claim C3: decoding a stored image whose sentinel byte differs from
0x55 leaves every in-memory settings field at its boot default
(Celsius unit, brightness index 3, gauge shown, sound on, volume 100,
emissivity 0.95), performs no EEPROM write, and does not fail. -/
theorem C3_sentinel_mismatch_defaults (m : EEPROM)
    (h : eread m SETTINGS_VALID_ADDR ≠ SETTINGS_VALID_VALUE) :
    loadSettings defaultSettings m = (defaultSettings, m, 0) ∧
    defaultSettings.temp_in_celsius = true ∧
    defaultSettings.current_brightness = 3 ∧
    defaultSettings.showGauge = true ∧
    defaultSettings.sound_enabled = true ∧
    defaultSettings.volume_level = 100 ∧
    defaultSettings.current_emissivity = 95 / 100 := by
  refine ⟨?_, rfl, rfl, rfl, rfl, rfl, rfl⟩
  unfold loadSettings
  rw [if_neg h]

theorem C3_sentinel_mismatch_defaults_witness :
    eread zeroStore SETTINGS_VALID_ADDR ≠ SETTINGS_VALID_VALUE ∧
    loadSettings defaultSettings zeroStore = (defaultSettings, zeroStore, 0) := by
  have h : eread zeroStore SETTINGS_VALID_ADDR ≠ SETTINGS_VALID_VALUE := by decide
  exact ⟨h, (C3_sentinel_mismatch_defaults zeroStore h).1⟩

/-- Claim C5: after Confirm the countdown counter starts at 5, each
one-second tick decrements it by exactly 1, and the restart fires on
exactly the tick that takes the counter to 0 (the fifth tick), never on
an earlier tick and never while the counter is still positive. -/
theorem C5_countdown_restart (k : Nat) :
    countdownAfter 0 = 5 ∧
    countdownAfter k = 5 - k ∧
    (0 < countdownAfter k → countdownAfter (k + 1) = countdownAfter k - 1) ∧
    (restartAt k = true ↔ k = 4) := by
  have hall : ∀ j, countdownAfter j = 5 - j := fun j => countdownAfter_eq j
  refine ⟨hall 0, hall k, ?_, ?_⟩
  · intro _; rw [hall k, hall (k + 1)]; omega
  · unfold restartAt update_restart_countdown
    rw [hall k]
    split_ifs with h
    · simp only [beq_iff_eq]
      omega
    · simp only [Bool.false_eq_true, false_iff]
      omega

theorem C5_countdown_restart_witness :
    restartAt 4 = true ∧ (restartAt 2 = true ↔ (2 : Nat) = 4) := by
  exact ⟨((C5_countdown_restart 4).2.2.2).mpr rfl, (C5_countdown_restart 2).2.2.2⟩

/-- Claim C6: with no modal dialog open, Next (Button2) from the last
top-menu item wraps the selection to the first and Prev (Button1) from
the first wraps to the last, and likewise in the brightness menu over
its 4 levels; every press moves circularly (mod the item count), never
clamping and never leaving the range. -/
theorem C6_index_wraps (st : UIState)
    (hbar : st.bar_active = false) (hsnd : st.sound_menu_active = false) :
    (st.brightness_menu_active = false → st.menu_active = true →
      st.selected_menu_item < 6 →
      (handle_button_press st BUTTON2_PIN).selected_menu_item
          = (st.selected_menu_item + 1) % 6 ∧
      (handle_button_press st BUTTON1_PIN).selected_menu_item
          = (st.selected_menu_item + 5) % 6) ∧
    (st.brightness_menu_active = true →
      st.selected_brightness < 4 →
      (handle_button_press st BUTTON2_PIN).selected_brightness
          = (st.selected_brightness + 1) % 4 ∧
      (handle_button_press st BUTTON1_PIN).selected_brightness
          = (st.selected_brightness + 3) % 4) := by
  constructor
  · intro hbr hmenu hlt
    unfold handle_button_press
    simp only [hbar, hsnd, hbr, hmenu, Bool.false_eq_true, if_false, if_true,
      BUTTON1_PIN, BUTTON2_PIN]
    norm_num
    constructor <;> split_ifs <;> omega
  · intro hbr hlt
    unfold handle_button_press
    simp only [hbar, hsnd, hbr, Bool.false_eq_true, if_false, if_true,
      BUTTON1_PIN, BUTTON2_PIN]
    norm_num
    constructor <;> split_ifs <;> omega

/-- Navigation state sitting on the last top-menu item. -/
def navState : UIState :=
  { bar_active := false
    sound_menu_active := false
    brightness_menu_active := false
    menu_active := true
    selected_menu_item := 5
    selected_brightness := 0
    current_brightness := 3
    volume_level := 100
    temp_in_celsius := true }

theorem C6_index_wraps_witness :
    (handle_button_press navState BUTTON2_PIN).selected_menu_item = 0 ∧
    (handle_button_press navState BUTTON1_PIN).selected_menu_item = 4 := by
  have h := (C6_index_wraps navState rfl rfl).1 rfl rfl (by decide)
  exact ⟨by rw [h.1]; decide, by rw [h.2]; decide⟩

/-- Claim C8: every failed bus transaction (no acknowledgment or a
short read) makes `readObjectTemperature` return the sentinel -999.0,
and the temperature branch of `loop` leaves the displayed value, the
status label and the LED untouched for any reading not above -273.15
(in particular for the sentinel). -/
theorem C8_sensor_failure_no_update (r : BusResult) (d : DisplayState)
    (b : Bool) (t : ℚ)
    (hfail : r = BusResult.nack ∨ r = BusResult.shortRead)
    (ht : t ≤ -27315 / 100) :
    readObjectTemperature r = -999 ∧
    tempUpdateStep b (readObjectTemperature r) d = d ∧
    tempUpdateStep b t d = d := by
  have hr : readObjectTemperature r = -999 := by
    rcases hfail with h | h <;> subst h <;> rfl
  refine ⟨hr, ?_, ?_⟩
  · rw [hr]
    unfold tempUpdateStep
    rw [if_neg]
    norm_num
  · unfold tempUpdateStep
    rw [if_neg (not_lt.mpr ht)]

theorem C8_sensor_failure_no_update_witness :
    readObjectTemperature BusResult.nack = -999 ∧
    tempUpdateStep true (readObjectTemperature BusResult.nack) bootDisplay
      = bootDisplay := by
  have h := C8_sensor_failure_no_update BusResult.nack bootDisplay true (-999)
    (Or.inl rfl) (by norm_num)
  exact ⟨h.1, h.2.1⟩

/-- Claim C9 (counterexample): the little-endian 16-bit object reading
0x3A10 converts to 0x3A10 * 0.02 - 273.15 = 24.13 °C, which is nowhere
near the 9.17 °C the claim asserts (they differ by 14.96). -/
theorem C9_counterexample :
    readObjectTemperature (BusResult.ok 0x10 0x3A) = 2413 / 100 ∧
    |readObjectTemperature (BusResult.ok 0x10 0x3A) - 917 / 100| > 1 := by
  have h : readObjectTemperature (BusResult.ok 0x10 0x3A) = 2413 / 100 := by
    show (((16 ||| 58 <<< 8) % 65536 : Nat) : ℚ) * (2 / 100) - 27315 / 100
      = 2413 / 100
    rw [show (16 ||| 58 <<< 8) % 65536 = 14864 from by decide]
    push_cast
    norm_num
  refine ⟨h, ?_⟩
  rw [h]
  rw [abs_of_pos (by norm_num)]
  norm_num

/-- Claim C9 (amended): raw reading 0x3A10 converts to exactly
0x3A10 * 0.02 - 273.15 = 24.13 °C; that is below the Celsius too-cold
threshold (204 °C), so the status label becomes "TOO COLD" and the
indicator LED blue. -/
theorem C9_raw_3A10_too_cold :
    readObjectTemperature (BusResult.ok 0x10 0x3A) = 2413 / 100 ∧
    (2413 / 100 : ℚ) < TEMP_TOO_COLD_C ∧
    (tempUpdateStep true (readObjectTemperature (BusResult.ok 0x10 0x3A))
        bootDisplay).status = "TOO COLD" ∧
    (tempUpdateStep true (readObjectTemperature (BusResult.ok 0x10 0x3A))
        bootDisplay).led = LedColor.blue := by
  have h : readObjectTemperature (BusResult.ok 0x10 0x3A) = 2413 / 100 := by
    show (((16 ||| 58 <<< 8) % 65536 : Nat) : ℚ) * (2 / 100) - 27315 / 100
      = 2413 / 100
    rw [show (16 ||| 58 <<< 8) % 65536 = 14864 from by decide]
    push_cast
    norm_num
  refine ⟨h, by norm_num [TEMP_TOO_COLD_C], ?_, ?_⟩ <;>
    · rw [h]
      unfold tempUpdateStep
      norm_num [TEMP_TOO_COLD_C]

/-- Claim C4 (evaluation at the failing input): starting from the
default emissivity 0.95, two successive adjustments (to 0.80 then 0.70)
followed by Cancel at the restart dialog leave `current_emissivity` at
0.80 — the value before the *last* change — instead of the original
0.95, because each `setEmissivity` call overwrites
`pending_emissivity` with the then-current value.  The pending-change
flag is cleared as claimed. -/
theorem C4_cancel_restores_previous_not_original :
    defaultSettings.current_emissivity = 95 / 100 ∧
    (cancelRestart (applyAdjustments defaultSettings [8/10, 7/10])).current_emissivity
      = 8 / 10 ∧
    (8 / 10 : ℚ) ≠ 95 / 100 ∧
    (cancelRestart (applyAdjustments defaultSettings [8/10, 7/10])).emissivity_changed
      = false := by
  have h1 : (8 / 10 : ℚ) ≠ defaultSettings.current_emissivity := by
    show (8 / 10 : ℚ) ≠ 95 / 100
    norm_num
  have e1 : (setEmissivity (8 / 10) defaultSettings).1
      = { defaultSettings with pending_emissivity := 95 / 100
                               current_emissivity := 8 / 10
                               emissivity_changed := true } := by
    simp only [setEmissivity]
    rw [if_pos h1]
    rfl
  have h2 : (7 / 10 : ℚ) ≠ (8 / 10 : ℚ) := by norm_num
  have e2 : applyAdjustments defaultSettings [8/10, 7/10]
      = { defaultSettings with pending_emissivity := 8 / 10
                               current_emissivity := 7 / 10
                               emissivity_changed := true } := by
    unfold applyAdjustments
    simp only [List.foldl_cons, List.foldl_nil]
    rw [e1]
    simp only [setEmissivity]
    rw [if_pos h2]
  refine ⟨rfl, ?_, by norm_num, ?_⟩ <;> (rw [e2]; rfl)

/-- Claim C7: whatever bytes are stored, any load that passes the
sentinel check yields a record satisfying the Data Model invariants:
the brightness index is below the table size (clamped to the last index
when out of range), the volume percent lies in [25,100], and the
emissivity lies in [0.65,1.00]. -/
theorem C7_load_clamps_invariants (s0 : Settings) (m : EEPROM)
    (h : eread m SETTINGS_VALID_ADDR = SETTINGS_VALID_VALUE) :
    (loadSettings s0 m).1.current_brightness < BRIGHTNESS_LEVELS ∧
    ((loadSettings s0 m).1.current_brightness
        = if eread m BRIGHTNESS_ADDR ≥ BRIGHTNESS_LEVELS then BRIGHTNESS_LEVELS - 1
          else eread m BRIGHTNESS_ADDR) ∧
    25 ≤ (loadSettings s0 m).1.volume_level ∧
    (loadSettings s0 m).1.volume_level ≤ 100 ∧
    65 / 100 ≤ (loadSettings s0 m).1.current_emissivity ∧
    (loadSettings s0 m).1.current_emissivity ≤ 1 := by
  obtain ⟨-, -, -, hb, hv, he, -, -, -, -⟩ := loadSettings_spec s0 m h
  have hand : eread m SOUND_SETTINGS_ADDR &&& 3 ≤ 3 := Nat.and_le_right
  have hand7 : eread m SOUND_SETTINGS_ADDR &&& 127 ≤ 127 := Nat.and_le_right
  refine ⟨?_, hb, ?_, ?_, ?_, ?_⟩
  · rw [hb]
    unfold BRIGHTNESS_LEVELS
    split_ifs <;> omega
  · rw [hv]
    split_ifs <;> omega
  · rw [hv]
    split_ifs <;> omega
  · rw [he]
    exact (clamped_emissivity_bounds _).1
  · rw [he]
    exact (clamped_emissivity_bounds _).2

theorem C7_load_clamps_invariants_witness :
    eread (ewrite zeroStore SETTINGS_VALID_ADDR SETTINGS_VALID_VALUE)
        SETTINGS_VALID_ADDR = SETTINGS_VALID_VALUE ∧
    (25 ≤ (loadSettings defaultSettings
        (ewrite zeroStore SETTINGS_VALID_ADDR SETTINGS_VALID_VALUE)).1.volume_level ∧
     65 / 100 ≤ (loadSettings defaultSettings
        (ewrite zeroStore SETTINGS_VALID_ADDR SETTINGS_VALID_VALUE)).1.current_emissivity) := by
  have hs : eread (ewrite zeroStore SETTINGS_VALID_ADDR SETTINGS_VALID_VALUE)
      SETTINGS_VALID_ADDR = SETTINGS_VALID_VALUE := by decide
  have h := C7_load_clamps_invariants defaultSettings
    (ewrite zeroStore SETTINGS_VALID_ADDR SETTINGS_VALID_VALUE) hs
  exact ⟨hs, h.2.2.1, h.2.2.2.2.1⟩

/-- Claim C10: calling `setEmissivity` with the current value is a
complete no-op — no bus write, no change to the pending value or the
changed flag; consequently the `setEmissivity(current_emissivity)` call
inside `loadSettings` never raises `emissivity_changed` at boot, so a
later Exit from the menu does not show the restart dialog. -/
theorem C10_setEmissivity_equal_noop (s : Settings) (v : ℚ) (m : EEPROM)
    (h : v = s.current_emissivity) :
    setEmissivity v s = (s, none) ∧
    (loadSettings defaultSettings m).1.emissivity_changed = false ∧
    exitShowsRestart (loadSettings defaultSettings m).1 = false := by
  have h1 : setEmissivity v s = (s, none) := by
    rw [h]
    exact setEmissivity_self s
  have h2 : (loadSettings defaultSettings m).1.emissivity_changed = false := by
    by_cases hv : eread m SETTINGS_VALID_ADDR = SETTINGS_VALID_VALUE
    · obtain ⟨-, -, -, -, -, -, -, hch, -, -⟩ := loadSettings_spec defaultSettings m hv
      exact hch.trans rfl
    · unfold loadSettings
      rw [if_neg hv]
      rfl
  exact ⟨h1, h2, h2⟩

theorem C10_setEmissivity_equal_noop_witness :
    setEmissivity (95 / 100) defaultSettings = (defaultSettings, none) ∧
    (loadSettings defaultSettings zeroStore).1.emissivity_changed = false := by
  have h := C10_setEmissivity_equal_noop defaultSettings (95 / 100) zeroStore rfl
  exact ⟨h.1, h.2.1⟩

/-- Claim C2: a stored sound byte whose low 7 bits are at most 0x03 is
decoded as enabled = bit 7, volumePercent = (low 2 bits) * 25 + 25, and
storage is rewritten exactly once into the new packed encoding; a
subsequent load sees a byte that fails the legacy test, decodes to the
same pair, and performs no further rewrite. -/
theorem C2_legacy_migration (s0 : Settings) (m : EEPROM)
    (hv : eread m SETTINGS_VALID_ADDR = SETTINGS_VALID_VALUE)
    (hbyte : eread m SOUND_SETTINGS_ADDR < 256)
    (hleg : eread m SOUND_SETTINGS_ADDR &&& 0x7F ≤ 0x03) :
    (loadSettings s0 m).1.sound_enabled
        = (eread m SOUND_SETTINGS_ADDR &&& 0x80 != 0) ∧
    (loadSettings s0 m).1.volume_level
        = (eread m SOUND_SETTINGS_ADDR &&& 0x03) * 25 + 25 ∧
    (loadSettings s0 m).2.2 = 1 ∧
    (loadSettings s0 m).2.1
        = ewrite m SOUND_SETTINGS_ADDR
            ((if (eread m SOUND_SETTINGS_ADDR &&& 0x80 != 0) = true then 0x80 else 0)
              ||| (((eread m SOUND_SETTINGS_ADDR &&& 0x03) * 25 + 25) &&& 0x7F)) ∧
    eread (loadSettings s0 m).2.1 SOUND_SETTINGS_ADDR
        = ((if (eread m SOUND_SETTINGS_ADDR &&& 0x80 != 0) = true then 0x80 else 0)
            ||| (((eread m SOUND_SETTINGS_ADDR &&& 0x03) * 25 + 25) &&& 0x7F)) ∧
    ¬(eread (loadSettings s0 m).2.1 SOUND_SETTINGS_ADDR &&& 0x7F ≤ 0x03) ∧
    (loadSettings (loadSettings s0 m).1 (loadSettings s0 m).2.1).2.2 = 0 ∧
    (loadSettings (loadSettings s0 m).1 (loadSettings s0 m).2.1).2.1
        = (loadSettings s0 m).2.1 ∧
    (loadSettings (loadSettings s0 m).1 (loadSettings s0 m).2.1).1.volume_level
        = (loadSettings s0 m).1.volume_level ∧
    (loadSettings (loadSettings s0 m).1 (loadSettings s0 m).2.1).1.sound_enabled
        = (loadSettings s0 m).1.sound_enabled := by
  have hand : eread m SOUND_SETTINGS_ADDR &&& 3 ≤ 3 := Nat.and_le_right
  obtain ⟨nb1, nb2, nb3, nb4⟩ :=
    legacy_migrated_byte_facts (eread m SOUND_SETTINGS_ADDR &&& 3) (by omega)
      (eread m SOUND_SETTINGS_ADDR &&& 128 != 0)
  obtain ⟨-, -, hs, -, hvl, -, -, -, hm, hcnt⟩ := loadSettings_spec s0 m hv
  simp only [hleg, ite_true] at hvl hm hcnt
  have hvol : (loadSettings s0 m).1.volume_level
      = (eread m SOUND_SETTINGS_ADDR &&& 3) * 25 + 25 := by
    rw [hvl,
      if_neg (show ¬((eread m SOUND_SETTINGS_ADDR &&& 3) * 25 + 25 < 25) by omega),
      if_neg (show ¬((eread m SOUND_SETTINGS_ADDR &&& 3) * 25 + 25 > 100) by omega)]
  have hb6 : eread (loadSettings s0 m).2.1 SOUND_SETTINGS_ADDR
      = ((if (eread m SOUND_SETTINGS_ADDR &&& 128 != 0) = true then 128 else 0)
          ||| (((eread m SOUND_SETTINGS_ADDR &&& 3) * 25 + 25) &&& 127)) := by
    rw [hm, eread_ewrite, if_pos rfl, nb1]
  have hb0 : eread (loadSettings s0 m).2.1 SETTINGS_VALID_ADDR = SETTINGS_VALID_VALUE := by
    rw [hm, eread_ewrite, if_neg (by decide)]
    exact hv
  obtain ⟨-, -, hs2, -, hvl2, -, -, -, hm2, hcnt2⟩ :=
    loadSettings_spec (loadSettings s0 m).1 (loadSettings s0 m).2.1 hb0
  rw [hb6] at hs2 hvl2 hm2 hcnt2
  simp only [if_neg nb4] at hvl2 hm2 hcnt2
  refine ⟨hs, hvol, ?_, ?_, hb6, ?_, hcnt2, hm2, ?_, ?_⟩
  · rw [hcnt]
  · rw [hm]
  · rw [hb6]
    exact nb4
  · rw [hvl2, nb3, hvol,
      if_neg (show ¬((eread m SOUND_SETTINGS_ADDR &&& 3) * 25 + 25 < 25) by omega),
      if_neg (show ¬((eread m SOUND_SETTINGS_ADDR &&& 3) * 25 + 25 > 100) by omega)]
  · rw [hs2, nb2, hs]

/-- Image holding the sentinel and a legacy sound byte 0x82
(enabled, legacy volume index 2). -/
def legacyStore : EEPROM :=
  ewrite (ewrite zeroStore SETTINGS_VALID_ADDR SETTINGS_VALID_VALUE)
    SOUND_SETTINGS_ADDR 0x82

theorem C2_legacy_migration_witness :
    (loadSettings defaultSettings legacyStore).1.volume_level = 75 ∧
    (loadSettings defaultSettings legacyStore).2.2 = 1 ∧
    (loadSettings (loadSettings defaultSettings legacyStore).1
        (loadSettings defaultSettings legacyStore).2.1).2.2 = 0 := by
  have h := C2_legacy_migration defaultSettings legacyStore
    (by decide) (by decide) (by decide)
  refine ⟨?_, h.2.2.1, h.2.2.2.2.2.2.1⟩
  rw [h.2.1]
  decide

/-- Claim C1 (amended): for every record satisfying the Data Model
invariants whose emissivity is a whole number of hundredths
(`emissivity * 100` integral, as every value `saveSettings` can later
reproduce must be), decoding the image written by `saveSettings`
restores every persisted field exactly; the emissivity travels as
`emissivity * 100` in two little-endian bytes.  The unrestricted claim
is false (`C1_counterexample`): the C cast truncates rather than
rounds, so hundredth fractions are lost. -/
theorem C1_roundtrip (s s0 : Settings) (m : EEPROM) (k : ℕ)
    (hval : validRecord s) (hk : s.current_emissivity = (k : ℚ) / 100) :
    (loadSettings s0 (saveSettings s m)).1.temp_in_celsius = s.temp_in_celsius ∧
    (loadSettings s0 (saveSettings s m)).1.current_brightness = s.current_brightness ∧
    (loadSettings s0 (saveSettings s m)).1.showGauge = s.showGauge ∧
    (loadSettings s0 (saveSettings s m)).1.sound_enabled = s.sound_enabled ∧
    (loadSettings s0 (saveSettings s m)).1.volume_level = s.volume_level ∧
    (loadSettings s0 (saveSettings s m)).1.current_emissivity = s.current_emissivity := by
  obtain ⟨hbr, hvlo, hvhi, helo, hehi⟩ := hval
  unfold BRIGHTNESS_LEVELS at hbr
  have hkcast_lo : (65 : ℚ) ≤ (k : ℚ) := by
    rw [hk] at helo
    linarith
  have hkcast_hi : (k : ℚ) ≤ 100 := by
    rw [hk] at hehi
    linarith
  have hk1 : 65 ≤ k := by exact_mod_cast hkcast_lo
  have hk2 : k ≤ 100 := by exact_mod_cast hkcast_hi
  have hfloor : Int.toNat ⌊s.current_emissivity * 100⌋ = k := by
    rw [hk, div_mul_cancel₀ _ (by norm_num : (100 : ℚ) ≠ 0)]
    simp
  obtain ⟨b0, b1, b2, b3, b6, b4, b5⟩ := saveSettings_bytes s m
  obtain ⟨p1, p2, p3, p4⟩ :=
    packed_sound_byte_facts s.volume_level (by omega) hvlo s.sound_enabled
  obtain ⟨e1, e2, e3⟩ := emis_bytes k (by omega) hk1
  rw [hfloor] at b4 b5
  rw [e1] at b4
  rw [e2] at b5
  rw [p1] at b6
  obtain ⟨ht, hg, hs, hbright, hvol, hemis, -, -, -, -⟩ :=
    loadSettings_spec s0 (saveSettings s m) b0
  rw [b6] at hs hvol hemis
  refine ⟨?_, ?_, ?_, ?_, ?_, ?_⟩
  · rw [ht, b1]
    cases s.temp_in_celsius <;> simp
  · rw [hbright, b3, Nat.mod_eq_of_lt (show s.current_brightness < 256 by omega),
      if_neg (show ¬(s.current_brightness ≥ BRIGHTNESS_LEVELS) by
        simp only [BRIGHTNESS_LEVELS]; omega)]
  · rw [hg, b2]
    cases s.showGauge <;> simp
  · rw [hs, p2]
  · rw [hvol]
    simp only [if_neg p4]
    rw [p3, if_neg (show ¬(s.volume_level < 25) by omega),
      if_neg (show ¬(s.volume_level > 100) by omega)]
  · rw [hemis]
    simp only [if_neg p4]
    rw [b4, b5, e3, hk]
    rw [if_neg (show ¬((k : ℚ) / 100 < 65 / 100) by rw [not_lt]; linarith),
      if_neg (show ¬((k : ℚ) / 100 > 1) by rw [not_lt]; linarith)]

theorem C1_roundtrip_witness :
    validRecord defaultSettings ∧
    (loadSettings defaultSettings (saveSettings defaultSettings zeroStore)).1.volume_level
      = defaultSettings.volume_level ∧
    (loadSettings defaultSettings (saveSettings defaultSettings zeroStore)).1.current_emissivity
      = defaultSettings.current_emissivity := by
  have hval : validRecord defaultSettings := by
    refine ⟨by decide, by decide, by decide, ?_, ?_⟩
    · show (65 : ℚ) / 100 ≤ 95 / 100
      norm_num
    · show (95 : ℚ) / 100 ≤ 1
      norm_num
  have hk : defaultSettings.current_emissivity = ((95 : ℕ) : ℚ) / 100 := by
    show (95 : ℚ) / 100 = ((95 : ℕ) : ℚ) / 100
    norm_num
  have h := C1_roundtrip defaultSettings defaultSettings zeroStore 95 hval hk
  exact ⟨hval, h.2.2.2.2.1, h.2.2.2.2.2⟩

/-- Record with emissivity 0.655 — valid per the Data Model invariants
([0.65,1.00]), but not a whole number of hundredths. -/
def c1cex : Settings := { defaultSettings with current_emissivity := 131 / 200 }

/-- Claim C1 (counterexample): for the valid record with emissivity
0.655, `saveSettings` stores the low emissivity byte 65 — truncating,
where `round(0.655 * 100) = 66` — and the decoded record carries
emissivity 0.65 ≠ 0.655, so `decode(encode(r)) = r` fails as stated. -/
theorem C1_counterexample :
    validRecord c1cex ∧
    eread (saveSettings c1cex zeroStore) EMISSIVITY_ADDR = 65 ∧
    round (c1cex.current_emissivity * 100) = 66 ∧
    (loadSettings defaultSettings (saveSettings c1cex zeroStore)).1.current_emissivity
      = 65 / 100 ∧
    (loadSettings defaultSettings (saveSettings c1cex zeroStore)).1.current_emissivity
      ≠ c1cex.current_emissivity := by
  have hvalid : validRecord c1cex := by
    refine ⟨by decide, by decide, by decide, ?_, ?_⟩
    · show (65 : ℚ) / 100 ≤ 131 / 200
      norm_num
    · show (131 : ℚ) / 200 ≤ 1
      norm_num
  have hfl : Int.toNat ⌊c1cex.current_emissivity * 100⌋ = 65 := by
    show Int.toNat ⌊(131 : ℚ) / 200 * 100⌋ = 65
    norm_num
    decide
  obtain ⟨b0, b1, b2, b3, b6, b4, b5⟩ := saveSettings_bytes c1cex zeroStore
  rw [hfl] at b4 b5
  have hb4 : eread (saveSettings c1cex zeroStore) EMISSIVITY_ADDR = 65 := by
    rw [b4]
    decide
  have hb5 : eread (saveSettings c1cex zeroStore) (EMISSIVITY_ADDR + 1) = 0 := by
    rw [b5]
    decide
  have hb6 : eread (saveSettings c1cex zeroStore) SOUND_SETTINGS_ADDR = 228 := by
    rw [b6]
    decide
  obtain ⟨-, -, -, -, -, hemis, -, -, -, -⟩ :=
    loadSettings_spec defaultSettings (saveSettings c1cex zeroStore) b0
  rw [hb6] at hemis
  rw [if_neg (show ¬((228 : Nat) &&& 127 ≤ 3) by decide)] at hemis
  rw [hb4, hb5] at hemis
  rw [show ((65 : Nat) ||| 0 <<< 8) = 65 from by decide] at hemis
  rw [if_neg (show ¬((((65 : ℕ) : ℚ)) / 100 < 65 / 100) by norm_num)] at hemis
  rw [if_neg (show ¬((((65 : ℕ) : ℚ)) / 100 > 1) by norm_num)] at hemis
  have h4 : (loadSettings defaultSettings (saveSettings c1cex zeroStore)).1.current_emissivity
      = 65 / 100 := by
    rw [hemis]
    norm_num
  have hround : round (c1cex.current_emissivity * 100) = 66 := by
    show round ((131 : ℚ) / 200 * 100) = 66
    rw [round_eq]
    norm_num
  refine ⟨hvalid, hb4, hround, h4, ?_⟩
  rw [h4]
  show (65 : ℚ) / 100 ≠ 131 / 200
  norm_num

end NCIR
